import Mathlib

/-!
Shallow embedding of the Spotipy-v1 acquisition pipeline (src/app.py) and
proofs about its retry wrapper, source-location tiers, orchestrator loop,
retention sweeper and session store.

Conventions of the embedding:
* Python exceptions are modelled as `Except String`; an exception's `str` is
  the error string (surrounding quote characters of f-strings are dropped).
* Nondeterministic inputs (per-call API responses, per-call jitter from
  `random.uniform(0, 1)`, per-attempt network outcomes) are passed in as
  streams indexed by the call number.
* `time.sleep(delay)` is modelled by recording `delay` in a list; delays are
  rationals (`backoff_factor ** attempt` plus jitter).
* The filesystem is modelled as lists: a session directory is a list of file
  names, the storage root a list of named directories.
-/

namespace SpotipyV1

/-- Outcome of one run of the `retry_on_failure` wrapper: the returned value
or raised exception, the recorded sleep delays in order, and the number of
calls made to the wrapped function. -/
structure RetryResult (α : Type) where
  result : Except String α
  delays : List ℚ
  attempts : Nat

/-- The `while attempt < retries` loop of `retry_on_failure` in src/app.py.
`fuel` is `retries - attempt`, `attempt` the current attempt counter, `acc`
the delays slept so far, in sleep order.  On each iteration the
wrapped function is called (its outcome for call `k` is `func k`); on failure
the counter is incremented, `delay = backoff_factor ** attempt` (plus jitter
when enabled) is slept, and the loop continues; when the counter reaches
`retries` the wrapper raises `f"{func.__name__} failed after {retries}
retries."`. -/
def retryAux {α : Type} (name : String) (retries : Nat) (bf : ℚ) (useJitter : Bool)
    (js : Nat → ℚ) (func : Nat → Except String α) :
    Nat → Nat → List ℚ → RetryResult α
  | 0, attempt, acc =>
      ⟨Except.error (name ++ " failed after " ++ toString retries ++ " retries."),
        acc, attempt⟩
  | fuel + 1, attempt, acc =>
      match func attempt with
      | Except.ok v => ⟨Except.ok v, acc, attempt + 1⟩
      | Except.error _ =>
          let a := attempt + 1
          let d := bf ^ a + (if useJitter then js a else 0)
          retryAux name retries bf useJitter js func fuel a (acc ++ [d])

/-- `retry_on_failure(retries, backoff_factor, jitter)` applied to a wrapped
function `func` (source defaults: `retries=5`, `backoff_factor=2`,
`jitter=True`).  `js k` models the value drawn by `random.uniform(0, 1)`
for the `k`-th delay. -/
def retry_on_failure {α : Type} (retries : Nat) (bf : ℚ) (useJitter : Bool)
    (js : Nat → ℚ) (name : String) (func : Nat → Except String α) : RetryResult α :=
  retryAux name retries bf useJitter js func retries 0 []

/-- The delay slept after the `a`-th failure (1-based). -/
def retryDelay (bf : ℚ) (useJitter : Bool) (js : Nat → ℚ) (a : Nat) : ℚ :=
  bf ^ a + (if useJitter then js a else 0)

/-- One underlying call of `search_youtube_api` (src/app.py lines 92-101),
given the list of items the YouTube API returned for this call (each item
modelled by its videoId).  Zero items raises
`No YouTube results found for {query}`; otherwise the watch URL is built
from the first item. -/
def search_youtube_api_call (query : String) (items : List String) :
    Except String String :=
  match items with
  | [] => Except.error ("No YouTube results found for " ++ query)
  | v :: _ => Except.ok ("https://www.youtube.com/watch?v=" ++ v)

/-- `search_youtube_api` with its `@retry_on_failure()` decorator (defaults
`retries=5, backoff_factor=2, jitter=True`).  `itemsPerCall k` is the API
response of the `k`-th call, `js` the jitter stream. -/
def search_youtube_api (js : Nat → ℚ) (query : String)
    (itemsPerCall : Nat → List String) : RetryResult String :=
  retry_on_failure 5 2 true js "search_youtube_api"
    (fun k => search_youtube_api_call query (itemsPerCall k))

/-- One underlying call of `search_youtube_yt_dlp` (src/app.py lines
105-115), given the entries returned by the extraction tool (each modelled
by its direct URL). -/
def search_yt_dlp_call (query : String) (entries : List String) :
    Except String String :=
  match entries with
  | [] => Except.error ("No results found for " ++ query)
  | u :: _ => Except.ok u

/-- `search_youtube_yt_dlp` with its `@retry_on_failure()` decorator. -/
def search_youtube_yt_dlp (js : Nat → ℚ) (query : String)
    (entriesPerCall : Nat → List String) : RetryResult String :=
  retry_on_failure 5 2 true js "search_youtube_yt_dlp"
    (fun k => search_yt_dlp_call query (entriesPerCall k))

/-- Add a file name to a directory listing (writing a path that already
exists overwrites in place). -/
def addFile (f : String) (files : List String) : List String :=
  if f ∈ files then files else files ++ [f]

/-- Result state of `convert_to_mp3`: the directory listing afterwards and
whether the `except` branch logged an error. -/
structure ConvertResult where
  files : List String
  errorLogged : Bool

/-- `convert_to_mp3` (src/app.py lines 130-139).  The fallible decode/export
step (`AudioSegment.from_file` + `export`) is the `transcode` argument; on
its success the MP3 is written and the intermediate `<query>.webm` removed;
on its failure the exception is caught and logged and the listing is left
unchanged.  The function itself never raises. -/
def convert_to_mp3 (transcode : Except String Unit) (query : String)
    (files : List String) : ConvertResult :=
  match transcode with
  | Except.ok _ =>
      ⟨(addFile (query ++ ".mp3") files).filter (fun f => f != query ++ ".webm"), false⟩
  | Except.error _ => ⟨files, true⟩

/-- Per-track environment: everything nondeterministic that one track's
acquisition consumes.  `apiItems k` is the YouTube API response to the
`k`-th primary call; `fbEntries k` the yt-dlp search result of the `k`-th
fallback call; `dlOutcome k` the outcome of the `k`-th download attempt;
`transcode` the outcome of the decode/export step; `jsApi`, `jsFb`, `jsDl`
the jitter streams of the three retry wrappers. -/
structure TrackEnv where
  apiItems : Nat → List String
  fbEntries : Nat → List String
  dlOutcome : Nat → Except String Unit
  transcode : Except String Unit
  jsApi : Nat → ℚ
  jsFb : Nat → ℚ
  jsDl : Nat → ℚ

/-- Trace of the two-tier source location for one track, as composed by the
`try: video_url = search_youtube_api(query) except: video_url =
search_youtube_yt_dlp(query)` block of `index` (src/app.py lines 155-158):
how many calls the primary tier's retry wrapper made, which delays it slept,
how often the fallback tier was invoked, and the resulting URL or error. -/
structure LocateTrace where
  primaryAttempts : Nat
  primaryDelays : List ℚ
  fallbackInvocations : Nat
  result : Except String String

/-- The inner `try/except` of the per-track loop: primary search first; only
if it raises (after its own retries) is the fallback invoked, exactly once. -/
def locate_source (query : String) (env : TrackEnv) : LocateTrace :=
  let p := search_youtube_api env.jsApi query env.apiItems
  match p.result with
  | Except.ok url => ⟨p.attempts, p.delays, 0, Except.ok url⟩
  | Except.error _ =>
      let f := search_youtube_yt_dlp env.jsFb query env.fbEntries
      ⟨p.attempts, p.delays, 1, f.result⟩

/-- `download_song` (src/app.py lines 119-127) with its retry decorator:
on retry exhaustion the exception propagates; on success the raw
`<query>.webm` is written and `convert_to_mp3` is called (which swallows its
own failures). -/
def download_song (env : TrackEnv) (query : String) (files : List String) :
    Except String (List String) :=
  let r := retry_on_failure 5 2 true env.jsDl "download_song" env.dlOutcome
  match r.result with
  | Except.error e => Except.error e
  | Except.ok _ =>
      Except.ok (convert_to_mp3 env.transcode query (addFile (query ++ ".webm") files)).files

/-- Per-track trace: source-location trace plus whether the final MP3 for
the track's stem is present when the track's loop iteration ends. -/
structure TrackTrace where
  locate : LocateTrace
  mp3Produced : Bool

/-- Body of the per-track loop of `index` (src/app.py lines 152-161): build
the query, locate a source (primary then fallback), download; any failure is
caught by the outer `except` and logged, and the iteration ends normally. -/
def process_track (name artist : String) (env : TrackEnv) (files : List String) :
    TrackTrace × List String :=
  let query := name ++ " " ++ artist
  let lt := locate_source query env
  match lt.result with
  | Except.error _ => (⟨lt, false⟩, files)
  | Except.ok _ =>
      match download_song env query files with
      | Except.error _ => (⟨lt, false⟩, files)
      | Except.ok files2 => (⟨lt, decide ((query ++ ".mp3") ∈ files2)⟩, files2)

/-- A catalog track as projected by `fetch_spotify_playlist_tracks`:
`{name: track.name, artist: track.artists[0].name}`. -/
structure Track where
  name : String
  artist : String

/-- Left-to-right scan of Python `str.split(sep)` for a non-empty separator:
at each position, if `sep` is a prefix of the rest, the accumulated segment
is emitted and `sep` consumed; otherwise one character moves into the
accumulator.  `fuel` bounds the recursion (any `fuel ≥ s.length` is exact,
since each step consumes at least one character). -/
def pySplitAux (sep : List Char) : Nat → List Char → List Char → List (List Char)
  | _, [], acc => [acc.reverse]
  | 0, s, acc => [acc.reverse ++ s]
  | fuel + 1, c :: rest, acc =>
      if sep.isPrefixOf (c :: rest) then
        acc.reverse :: pySplitAux sep fuel ((c :: rest).drop sep.length) []
      else
        pySplitAux sep fuel rest (c :: acc)

/-- Python `s.split(sep)` for a non-empty separator. -/
def pySplit (sep s : String) : List String :=
  (pySplitAux sep.data (s.data.length + 1) s.data []).map String.mk

/-- Python `s.endswith(post)`. -/
def pyEndsWith (s post : String) : Bool :=
  post.data.isSuffixOf s.data

/-- `playlist_url.split('/playlist/')[1].split('?')[0]` (src/app.py line
77).  `none` models the IndexError raised when the URL has no
`/playlist/` separator. -/
def parsePlaylistId (url : String) : Option String :=
  match (pySplit "/playlist/" url).get? 1 with
  | none => none
  | some rest => some ((pySplit "?" rest).headD "")

/-- `fetch_spotify_playlist_tracks` with its retry decorator.  Each attempt
first parses the URL (an unparseable URL raises `list index out of range`
before any service call) and then queries the catalog service;
`service k pid` is the outcome of the service interaction of attempt `k`
(the paginated fetch is abstracted to the accumulated track list it would
produce). -/
def fetch_spotify_playlist_tracks (js : Nat → ℚ) (url : String)
    (service : Nat → String → Except String (List Track)) : RetryResult (List Track) :=
  retry_on_failure 5 2 true js "fetch_spotify_playlist_tracks"
    (fun k =>
      match parsePlaylistId url with
      | none => Except.error "list index out of range"
      | some pid => service k pid)

/-- The per-track `for` loop of `index`: processes the tracks in catalog
order, threading the session directory listing; `env i` is the environment
consumed by track `i`.  Returns the per-track traces in order and the final
listing. -/
def run_tracks (env : Nat → TrackEnv) :
    List Track → Nat → List String → List TrackTrace × List String
  | [], _, files => ([], files)
  | t :: ts, i, files =>
      let (tr, files2) := process_track t.name t.artist (env i) files
      let (trs, files3) := run_tracks env ts (i + 1) files2
      (tr :: trs, files3)

/-- The JSON envelope returned by the `index` POST handler. -/
inductive Envelope
  | ok (userId message : String)
  | err (message : String)
  deriving DecidableEq

/-- Observable side effects of one `index` POST request: whether the session
directory was created, how many catalog-service calls were made, how many
track acquisitions were attempted, and the final directory listing. -/
structure IndexTrace where
  dirCreated : Bool
  serviceCalls : Nat
  trackAttempts : Nat
  files : List String

/-- The POST branch of `index` (src/app.py lines 143-164): generate a
session id, create its directory (`os.makedirs`, before anything else),
then fetch the playlist tracks; on fetch failure return the error envelope;
otherwise run the per-track loop (which never raises) and return the
success envelope carrying the session id.  Each fetch attempt whose parse
succeeds performs exactly one catalog-service call, so the number of
service calls is the attempt count when the URL parses and zero otherwise. -/
def index_post (url userId : String) (js : Nat → ℚ)
    (service : Nat → String → Except String (List Track))
    (env : Nat → TrackEnv) : Envelope × IndexTrace :=
  let fr := fetch_spotify_playlist_tracks js url service
  let svc := match parsePlaylistId url with
    | none => 0
    | some _ => fr.attempts
  match fr.result with
  | Except.error e => (Envelope.err e, ⟨true, svc, 0, []⟩)
  | Except.ok tracks =>
      let (trs, files) := run_tracks env tracks 0 []
      (Envelope.ok userId "Download complete!", ⟨true, svc, trs.length, files⟩)

/-- An entry of a session directory as seen by the sweeper: a regular file
with its last-modified time (seconds), or a non-file entry
(`os.path.isfile` is false), which the sweeper never deletes. -/
inductive FolderEntry
  | file (name : String) (mtime : Int)
  | subdir (name : String)
  deriving DecidableEq

/-- An entry of the storage root: a session directory with its contents, or
a non-directory entry (`os.path.isdir` is false), which the root loop
skips. -/
inductive RootEntry
  | dir (name : String) (entries : List FolderEntry)
  | nondir (name : String)
  deriving DecidableEq

/-- `maxAge` of the retention policy: `timedelta(days=5)` in seconds. -/
def maxAgeSeconds : Int := 432000

/-- The inner `for file in os.listdir(folder_path)` loop of
`cleanup_old_files` (src/app.py lines 62-68): a regular file is removed iff
`now - mtime > timedelta(days=5)`; non-file entries are untouched.  Returns
the surviving entries. -/
def sweepFolder (now : Int) (entries : List FolderEntry) : List FolderEntry :=
  entries.filter (fun e =>
    match e with
    | FolderEntry.file _ m => !decide (now - m > maxAgeSeconds)
    | FolderEntry.subdir _ => true)

/-- Processing of one storage-root entry by `cleanup_old_files` (src/app.py
lines 59-71): non-directories are skipped; a directory has its files swept
and is then removed (`os.rmdir`) iff `os.listdir` finds it empty. -/
def cleanupRootEntry (now : Int) : RootEntry → Option RootEntry
  | RootEntry.nondir n => some (RootEntry.nondir n)
  | RootEntry.dir n es =>
      let es2 := sweepFolder now es
      if es2.isEmpty then none else some (RootEntry.dir n es2)

/-- One full cycle of the retention sweeper over the storage root. -/
def cleanup_cycle (now : Int) (root : List RootEntry) : List RootEntry :=
  root.filterMap (cleanupRootEntry now)

/-- The session store: the storage root as an association list from session
id to directory listing. -/
def SessionStore := List (String × List String)

/-- `list_files` (src/app.py lines 174-180): if the session directory does
not exist the `No files found for this user.` error envelope is returned
(the SessionNotFound signal); otherwise the names ending in `.mp3`. -/
def list_files (store : SessionStore) (userId : String) :
    Except String (List String) :=
  match List.lookup userId store with
  | none => Except.error "No files found for this user."
  | some files => Except.ok (files.filter (fun f => pyEndsWith f ".mp3"))

/-- `download_all` (src/app.py lines 183-194): a missing session directory
yields the SessionNotFound envelope; otherwise a zip named
`<user_id>_songs.zip` is built whose entries are the `.mp3` files of the
directory.  The second component is the store after the request — the
handler only reads, so it is returned unchanged. -/
def download_all (store : SessionStore) (userId : String) :
    Except String (List String × String) × SessionStore :=
  match List.lookup userId store with
  | none => (Except.error "No files found for this user.", store)
  | some files =>
      (Except.ok (files.filter (fun f => pyEndsWith f ".mp3"), userId ++ "_songs.zip"),
        store)


/-- The claim that a playlist URL parses to a non-empty identifier
(spec section 3, PlaylistReference invariant). -/
def parsesToNonEmptyId (url : String) : Bool :=
  match parsePlaylistId url with
  | some p => p != ""
  | none => false

/-- Concrete jitter stream: `random.uniform(0, 1)` always drawing 0. -/
def zeroJitter : Nat → ℚ := fun _ => 0

/-- Concrete per-track environment in which the YouTube API always returns
zero items, the fallback search always returns zero entries, and download
and transcode always fail. -/
def envNoResults : TrackEnv :=
  ⟨fun _ => [], fun _ => [], fun _ => Except.error "dl", Except.error "tc",
    zeroJitter, zeroJitter, zeroJitter⟩

/-- Concrete catalog service that always fails. -/
def svcFail : Nat → String → Except String (List Track) :=
  fun _ _ => Except.error "service unavailable"

/-- Concrete catalog service that always resolves to the empty playlist. -/
def svcEmpty : Nat → String → Except String (List Track) :=
  fun _ _ => Except.ok []

/-- Concrete session store holding one session directory with two MP3 files
and one raw intermediate. -/
def storeAB : SessionStore :=
  [("u", ["a.mp3", "b.mp3", "a.webm"])]

/-- Concrete session store holding one session directory with no MP3 files. -/
def storeNoMp3 : SessionStore :=
  [("u", ["a.webm", "notes.txt"])]

theorem retryAux_allFail {α : Type} (name : String) (retries : Nat) (bf : ℚ)
    (useJitter : Bool) (js : Nat → ℚ) (func : Nat → Except String α)
    (e : Nat → String) (hf : ∀ k, func k = Except.error (e k)) :
    ∀ fuel attempt acc,
      retryAux name retries bf useJitter js func fuel attempt acc =
        ⟨Except.error (name ++ " failed after " ++ toString retries ++ " retries."),
          acc ++
            (List.range fuel).map (fun i => retryDelay bf useJitter js (attempt + 1 + i)),
          attempt + fuel⟩ := by
  intro fuel
  induction fuel with
  | zero => intro attempt acc; simp [retryAux]
  | succ n ih =>
      intro attempt acc
      rw [retryAux, hf attempt]
      simp only
      rw [ih (attempt + 1) _]
      simp only [RetryResult.mk.injEq, true_and]
      constructor
      · rw [List.range_succ_eq_map, List.map_cons, List.map_map, List.append_assoc,
          List.singleton_append]
        have hfun : ((fun i => retryDelay bf useJitter js (attempt + 1 + i)) ∘ Nat.succ)
            = fun i => retryDelay bf useJitter js (attempt + 1 + 1 + i) := by
          funext i
          simp only [Function.comp]
          congr 1
          omega
        rw [hfun]
        simp [retryDelay]
      · omega

/-- Closed form of a run where every call fails. -/
theorem retry_allFail {α : Type} (name : String) (retries : Nat) (bf : ℚ)
    (useJitter : Bool) (js : Nat → ℚ) (func : Nat → Except String α)
    (e : Nat → String) (hf : ∀ k, func k = Except.error (e k)) :
    retry_on_failure retries bf useJitter js name func =
      ⟨Except.error (name ++ " failed after " ++ toString retries ++ " retries."),
        (List.range retries).map (fun i => retryDelay bf useJitter js (i + 1)),
        retries⟩ := by
  rw [retry_on_failure, retryAux_allFail name retries bf useJitter js func e hf]
  simp only [List.nil_append, Nat.zero_add]
  congr 1
  apply List.map_congr_left
  intro i _
  congr 1
  omega

/-- C1 counterexample: the claim states that when the primary search tier
returns zero results it fails immediately, consuming no retry attempts
(one call, no backoff delays), with the fallback then invoked exactly once.
On the code, with the API returning zero items on every call, the primary
tier makes 5 calls and sleeps 5 backoff delays before failing: the zero-result
exception is raised inside the retry-decorated function and is therefore
retried like any other failure. -/
theorem C1_counterexample :
    ¬ ((locate_source "q" envNoResults).primaryAttempts = 1 ∧
       (locate_source "q" envNoResults).primaryDelays = [] ∧
       (locate_source "q" envNoResults).fallbackInvocations = 1) := by
  intro h
  have h1 := h.1
  have : (locate_source "q" envNoResults).primaryAttempts = 5 := by decide
  omega

/-- C1 (amended): for every query for which the primary YouTube API search
returns zero results on every call, the primary tier fails only after its
retry wrapper has exhausted all 5 attempts, sleeping 5 backoff delays, and
control then falls to the fallback tier, which is invoked exactly once. -/
theorem C1_zero_results_exhausts_retries_then_fallback (query : String)
    (env : TrackEnv) (h : ∀ k, env.apiItems k = []) :
    (locate_source query env).primaryAttempts = 5 ∧
    (locate_source query env).primaryDelays.length = 5 ∧
    (locate_source query env).fallbackInvocations = 1 := by
  have hp := retry_allFail "search_youtube_api" 5 2 true env.jsApi
      (fun k => search_youtube_api_call query (env.apiItems k))
      (fun _ => "No YouTube results found for " ++ query)
      (fun k => by simp only [h k]; rfl)
  unfold locate_source search_youtube_api
  rw [hp]
  simp

/-- Witness for C1 (amended) at a concrete environment. -/
theorem C1_zero_results_exhausts_retries_then_fallback_witness :
    (∀ k, envNoResults.apiItems k = ([] : List String)) ∧
    ((locate_source "q" envNoResults).primaryAttempts = 5 ∧
     (locate_source "q" envNoResults).primaryDelays.length = 5 ∧
     (locate_source "q" envNoResults).fallbackInvocations = 1) :=
  ⟨fun _ => rfl,
    C1_zero_results_exhausts_retries_then_fallback "q" envNoResults (fun _ => rfl)⟩

/-- C3 (amended): with `retries=3`, a wrapped function failing on its first
two calls and succeeding on the third returns the success value after
recording exactly 2 delays and 3 calls; a function failing on every call
raises after exactly 3 attempts an exhaustion error whose message reports
the wrapped function's name and the retry count — not the last underlying
failure's description. -/
theorem C3_retry_three_attempts (name v e1 e2 : String) (js : Nat → ℚ)
    (alwaysFail : Nat → Except String String) (e : Nat → String)
    (hA : ∀ k, alwaysFail k = Except.error (e k)) :
    (let failTwice : Nat → Except String String := fun k =>
       match k with
       | 0 => Except.error e1
       | 1 => Except.error e2
       | _ => Except.ok v
     (retry_on_failure 3 2 true js name failTwice).result = Except.ok v ∧
     (retry_on_failure 3 2 true js name failTwice).delays.length = 2 ∧
     (retry_on_failure 3 2 true js name failTwice).attempts = 3) ∧
    ((retry_on_failure 3 2 true js name alwaysFail).result =
       Except.error (name ++ " failed after " ++ toString 3 ++ " retries.") ∧
     (retry_on_failure 3 2 true js name alwaysFail).attempts = 3) := by
  refine ⟨⟨rfl, rfl, rfl⟩, ?_, ?_⟩
  · rw [retry_allFail name 3 2 true js alwaysFail e hA]
  · rw [retry_allFail name 3 2 true js alwaysFail e hA]

/-- Witness for C3 (amended) at concrete inputs. -/
theorem C3_retry_three_attempts_witness :
    ((retry_on_failure 3 2 true zeroJitter "f" (fun k =>
        match k with
        | 0 => Except.error "e1"
        | 1 => Except.error "e2"
        | _ => Except.ok "v")).result = Except.ok "v" ∧
     (retry_on_failure 3 2 true zeroJitter "f" (fun k =>
        match k with
        | 0 => Except.error "e1"
        | 1 => Except.error "e2"
        | _ => Except.ok "v")).delays.length = 2 ∧
     (retry_on_failure 3 2 true zeroJitter "f" (fun k =>
        match k with
        | 0 => Except.error "e1"
        | 1 => Except.error "e2"
        | _ => Except.ok "v")).attempts = 3) ∧
    ((retry_on_failure 3 2 true zeroJitter "f"
        (fun _ => (Except.error "boom" : Except String String))).result =
       Except.error ("f" ++ " failed after " ++ toString 3 ++ " retries.") ∧
     (retry_on_failure 3 2 true zeroJitter "f"
        (fun _ => (Except.error "boom" : Except String String))).attempts = 3) :=
  C3_retry_three_attempts "f" "v" "e1" "e2" zeroJitter
    (fun _ => Except.error "boom") (fun _ => "boom") (fun _ => rfl)

/-- C3 counterexample: the raised exhaustion error does not carry the last
underlying failure's description.  With every call failing with `boom`, the
raised error is `f failed after 3 retries.`, and `boom` does not occur in
that message. -/
theorem C3_error_message_counterexample :
    (retry_on_failure 3 2 true zeroJitter "f"
        (fun _ => (Except.error "boom" : Except String Unit))).result =
      Except.error "f failed after 3 retries." ∧
    ¬ ("boom".data <:+: ("f failed after 3 retries.").data) :=
  ⟨rfl, by decide⟩

theorem run_tracks_length (env : Nat → TrackEnv) :
    ∀ (ts : List Track) (i : Nat) (files : List String),
      (run_tracks env ts i files).1.length = ts.length := by
  intro ts
  induction ts with
  | nil => intro i files; rfl
  | cons t ts ih =>
      intro i files
      rw [run_tracks]
      cases hp : process_track t.name t.artist (env i) files with
      | mk tr files2 =>
          cases hr : run_tracks env ts (i + 1) files2 with
          | mk trs files3 =>
              have := ih (i + 1) files2
              rw [hr] at this
              simp [hp, hr, this]

/-- C2: for every playlist whose catalog resolution succeeds with N tracks,
the orchestrator attempts exactly N track acquisitions in catalog order, no
per-track failure escapes the loop (the statement holds for every per-track
environment, i.e. for arbitrary search/download/transcode outcomes), and the
request returns the success envelope carrying the session identifier — even
when zero tracks actually downloaded. -/
theorem C2_orchestrator_attempts_all_tracks (url userId : String) (js : Nat → ℚ)
    (service : Nat → String → Except String (List Track)) (env : Nat → TrackEnv)
    (tracks : List Track)
    (h : (fetch_spotify_playlist_tracks js url service).result = Except.ok tracks) :
    (index_post url userId js service env).1 =
      Envelope.ok userId "Download complete!" ∧
    (index_post url userId js service env).2.trackAttempts = tracks.length := by
  unfold index_post
  dsimp only
  rw [h]
  cases hr : run_tracks env tracks 0 [] with
  | mk trs files =>
      have hl := run_tracks_length env tracks 0 []
      rw [hr] at hl
      simp [hl]
      exact run_tracks_length env tracks 0 []

/-- Witness for C2 at a concrete URL and a catalog service resolving to the
empty playlist. -/
theorem C2_orchestrator_attempts_all_tracks_witness :
    (fetch_spotify_playlist_tracks zeroJitter "http://x/playlist/abc?si=1"
        svcEmpty).result = Except.ok [] ∧
    ((index_post "http://x/playlist/abc?si=1" "u" zeroJitter svcEmpty
        (fun _ => envNoResults)).1 = Envelope.ok "u" "Download complete!" ∧
     (index_post "http://x/playlist/abc?si=1" "u" zeroJitter svcEmpty
        (fun _ => envNoResults)).2.trackAttempts = 0) :=
  ⟨rfl, C2_orchestrator_attempts_all_tracks "http://x/playlist/abc?si=1" "u"
    zeroJitter svcEmpty (fun _ => envNoResults) [] rfl⟩

/-- C5 counterexample: the claim states that every playlist reference either
parses to a non-empty identifier or the request fails before any I/O (no
session directory created, no service call).  The reference `foo` does not
parse, yet the POST handler creates the session directory before attempting
the parse, so I/O does occur. -/
theorem C5_counterexample :
    ¬ (parsesToNonEmptyId "foo" = true ∨
       ((index_post "foo" "u" zeroJitter svcFail (fun _ => envNoResults)).2.dirCreated
           = false ∧
        (index_post "foo" "u" zeroJitter svcFail (fun _ => envNoResults)).2.serviceCalls
           = 0)) := by
  decide

/-- C5 (amended): for every playlist URL that does not parse (no `/playlist/`
separator), no catalog-service call is ever made and the request returns an
error envelope — but only after the session directory has been created
(`os.makedirs` runs before the fetch) and after the parse failure has been
retried through the full 5-attempt budget of the retry wrapper. -/
theorem C5_unparseable_reference (url userId : String) (js : Nat → ℚ)
    (service : Nat → String → Except String (List Track)) (env : Nat → TrackEnv)
    (h : parsePlaylistId url = none) :
    (index_post url userId js service env).1 =
      Envelope.err ("fetch_spotify_playlist_tracks failed after " ++
        toString 5 ++ " retries.") ∧
    (index_post url userId js service env).2.serviceCalls = 0 ∧
    (index_post url userId js service env).2.dirCreated = true := by
  have hr := retry_allFail "fetch_spotify_playlist_tracks" 5 2 true js
      (fun k =>
        match parsePlaylistId url with
        | none => Except.error "list index out of range"
        | some pid => service k pid)
      (fun _ => "list index out of range")
      (fun k => by simp only [h])
  unfold index_post fetch_spotify_playlist_tracks
  dsimp only
  rw [hr, h]
  exact ⟨rfl, rfl, rfl⟩

/-- Witness for C5 (amended) at the concrete unparseable reference `foo`. -/
theorem C5_unparseable_reference_witness :
    parsePlaylistId "foo" = none ∧
    ((index_post "foo" "u" zeroJitter svcFail (fun _ => envNoResults)).1 =
       Envelope.err ("fetch_spotify_playlist_tracks failed after " ++
         toString 5 ++ " retries.") ∧
     (index_post "foo" "u" zeroJitter svcFail (fun _ => envNoResults)).2.serviceCalls
        = 0 ∧
     (index_post "foo" "u" zeroJitter svcFail (fun _ => envNoResults)).2.dirCreated
        = true) :=
  ⟨rfl, C5_unparseable_reference "foo" "u" zeroJitter svcFail
    (fun _ => envNoResults) rfl⟩

/-- C4: in every retention-sweeper cycle, a file inside a session directory
is deleted iff its age (`now - mtime`) strictly exceeds the 5-day threshold
(equivalently, it survives iff its age is at most 5 days); a session
directory is deleted iff it is empty after its files are evaluated; in
particular a file 6 days old is deleted, a file 4 days old is retained. -/
theorem C4_retention_invariant :
    (∀ (now m : Int) (nm : String) (entries : List FolderEntry),
       FolderEntry.file nm m ∈ sweepFolder now entries ↔
         FolderEntry.file nm m ∈ entries ∧ ¬(now - m > maxAgeSeconds)) ∧
    (∀ (now : Int) (nm : String) (es : List FolderEntry),
       cleanupRootEntry now (RootEntry.dir nm es) = none ↔
         sweepFolder now es = []) ∧
    sweepFolder 518400 [FolderEntry.file "a.mp3" 0] = [] ∧
    sweepFolder 345600 [FolderEntry.file "a.mp3" 0]
      = [FolderEntry.file "a.mp3" 0] := by
  refine ⟨?_, ?_, by decide, by decide⟩
  · intro now m nm entries
    simp [sweepFolder, List.mem_filter]
  · intro now nm es
    simp only [cleanupRootEntry]
    constructor
    · intro h
      by_cases he : (sweepFolder now es).isEmpty
      · exact List.isEmpty_iff.mp he
      · simp [he] at h
    · intro h
      simp [List.isEmpty_iff.mpr h]

/-- C6: for every transcode invocation, on success of the decode/export step
the MP3 for the stem is present and the intermediate raw file removed, with
no error logged; on failure the directory listing is unchanged (so the track
has no MP3 and the raw file is not removed), the error is logged, and —
`convert_to_mp3` being a total function on both outcomes — no exception
propagates to the caller. -/
theorem C6_convert_to_mp3 (query e : String) (files : List String) :
    ((query ++ ".mp3") ∈ (convert_to_mp3 (Except.ok ()) query files).files ∧
     (query ++ ".webm") ∉ (convert_to_mp3 (Except.ok ()) query files).files ∧
     (convert_to_mp3 (Except.ok ()) query files).errorLogged = false) ∧
    ((convert_to_mp3 (Except.error e) query files).files = files ∧
     ((query ++ ".mp3") ∉ files →
        (query ++ ".mp3") ∉ (convert_to_mp3 (Except.error e) query files).files) ∧
     (convert_to_mp3 (Except.error e) query files).errorLogged = true) := by
  have hne : query ++ ".mp3" ≠ query ++ ".webm" := by
    intro hEq
    have := congrArg String.length hEq
    simp [String.length_append] at this
    exact absurd this (by decide)
  refine ⟨⟨?_, ?_, rfl⟩, rfl, fun h => h, rfl⟩
  · simp only [convert_to_mp3, List.mem_filter, addFile]
    constructor
    · by_cases hmem : (query ++ ".mp3") ∈ files
      · simp [hmem]
      · simp [hmem]
    · simp [hne]
  · simp only [convert_to_mp3, List.mem_filter]
    intro hmem
    simp at hmem

/-- C7: for every existing session directory, `list_files` returns exactly
the filenames ending in `.mp3` (membership in the returned listing is
equivalent to membership in the directory together with the `.mp3` suffix);
for a session identifier whose directory does not exist it returns the
SessionNotFound error instead. -/
theorem C7_list_files (store : SessionStore) (userId : String) :
    (List.lookup userId store = none →
       list_files store userId =
         Except.error "No files found for this user.") ∧
    (∀ files, List.lookup userId store = some files →
       list_files store userId =
           Except.ok (files.filter (fun f => pyEndsWith f ".mp3")) ∧
       ∀ f, f ∈ files.filter (fun f => pyEndsWith f ".mp3") ↔
           f ∈ files ∧ pyEndsWith f ".mp3" = true) := by
  constructor
  · intro h
    simp [list_files, h]
  · intro files h
    refine ⟨by simp [list_files, h], ?_⟩
    intro f
    simp [List.mem_filter]

/-- Witness for C7 on a directory containing `a.mp3`, `b.mp3`, `a.webm`. -/
theorem C7_list_files_witness :
    list_files storeAB "u" = Except.ok ["a.mp3", "b.mp3"] := by
  have h := (C7_list_files storeAB "u").2 ["a.mp3", "b.mp3", "a.webm"] rfl
  rw [h.1]
  rfl

/-- C8: for a session identifier whose directory does not exist,
`download_all` returns the SessionNotFound error and never a zero-byte
archive (its result is not `Except.ok` of any entry list); for an existing
session, the archive named `<userId>_songs.zip` contains every `.mp3` file
of the directory, and the store is unchanged (no source file deleted). -/
theorem C8_download_all (store : SessionStore) (userId : String) :
    (List.lookup userId store = none →
       (download_all store userId).1 =
           Except.error "No files found for this user." ∧
       (∀ entries nm, (download_all store userId).1 ≠ Except.ok (entries, nm)) ∧
       (download_all store userId).2 = store) ∧
    (∀ files, List.lookup userId store = some files →
       (download_all store userId).1 =
           Except.ok (files.filter (fun f => pyEndsWith f ".mp3"),
             userId ++ "_songs.zip") ∧
       (∀ f, f ∈ files → pyEndsWith f ".mp3" = true →
          f ∈ files.filter (fun f => pyEndsWith f ".mp3")) ∧
       (download_all store userId).2 = store) := by
  constructor
  · intro h
    refine ⟨by simp [download_all, h], ?_, by simp [download_all, h]⟩
    intro entries nm
    simp [download_all, h]
  · intro files h
    refine ⟨by simp [download_all, h], ?_, by simp [download_all, h]⟩
    intro f hf hmp3
    simp [List.mem_filter, hf, hmp3]

/-- Witness for C8 on a missing session and on the concrete store. -/
theorem C8_download_all_witness :
    (download_all storeAB "missing").1 =
        Except.error "No files found for this user." ∧
    (download_all storeAB "u").1 =
        Except.ok (["a.mp3", "b.mp3"], "u" ++ "_songs.zip") := by
  constructor
  · exact ((C8_download_all storeAB "missing").1 rfl).1
  · have h := ((C8_download_all storeAB "u").2 ["a.mp3", "b.mp3", "a.webm"] rfl).1
    rw [h]
    rfl

/-- C10: for every session directory that exists but contains no MP3 files,
`download_all` succeeds with a valid empty archive (zero entries) rather
than a SessionNotFound signal or an error. -/
theorem C10_download_all_empty_archive (store : SessionStore) (userId : String)
    (files : List String) (h : List.lookup userId store = some files)
    (hno : ∀ f ∈ files, pyEndsWith f ".mp3" = false) :
    (download_all store userId).1 =
      Except.ok ([], userId ++ "_songs.zip") := by
  have hfil : files.filter (fun f => pyEndsWith f ".mp3") = [] := by
    rw [List.filter_eq_nil_iff]
    intro a ha
    simp [hno a ha]
  simp [download_all, h, hfil]

/-- Witness for C10 on a session directory holding only non-MP3 files. -/
theorem C10_download_all_empty_archive_witness :
    (download_all storeNoMp3 "u").1 = Except.ok ([], "u" ++ "_songs.zip") :=
  C10_download_all_empty_archive storeNoMp3 "u" ["a.webm", "notes.txt"] rfl
    (by decide)

/-- C9: when every call of the wrapped operation fails, the wrapper sleeps a
delay after every failure including the final one — exactly `retries` delays
before the exhaustion error is raised — and the `k`-th delay (1-based) is
`backoff_factor ^ k` plus, when jitter is enabled, the draw of
`random.uniform(0, 1)` for that failure; with the draw in `[0, 1)`, the
`k`-th delay lies in `[backoff_factor ^ k, backoff_factor ^ k + 1)`. -/
theorem C9_delays_on_exhaustion {α : Type} (name : String) (retries : Nat)
    (bf : ℚ) (useJitter : Bool) (js : Nat → ℚ) (func : Nat → Except String α)
    (e : Nat → String) (hf : ∀ k, func k = Except.error (e k)) :
    (retry_on_failure retries bf useJitter js name func).result =
        Except.error (name ++ " failed after " ++ toString retries ++ " retries.") ∧
    (retry_on_failure retries bf useJitter js name func).delays =
        (List.range retries).map (fun i => retryDelay bf useJitter js (i + 1)) ∧
    (retry_on_failure retries bf useJitter js name func).delays.length = retries ∧
    (∀ k, retryDelay bf true js k = bf ^ k + js k) ∧
    (∀ k, retryDelay bf false js k = bf ^ k) ∧
    (∀ k, 0 ≤ js k → js k < 1 →
       bf ^ k ≤ retryDelay bf true js k ∧ retryDelay bf true js k < bf ^ k + 1) := by
  rw [retry_allFail name retries bf useJitter js func e hf]
  refine ⟨rfl, rfl, by simp, fun k => by simp [retryDelay], fun k => by simp [retryDelay], ?_⟩
  intro k h0 h1
  constructor
  · simp [retryDelay]
    linarith
  · simp [retryDelay]
    linarith

/-- Witness for C9 at `retries=3`, `backoff_factor=2`, jitter draws of 1/2. -/
theorem C9_delays_on_exhaustion_witness :
    (retry_on_failure 3 2 true (fun _ => (1 : ℚ) / 2) "f"
        (fun _ => (Except.error "x" : Except String Unit))).result =
        Except.error ("f" ++ " failed after " ++ toString 3 ++ " retries.") ∧
    (retry_on_failure 3 2 true (fun _ => (1 : ℚ) / 2) "f"
        (fun _ => (Except.error "x" : Except String Unit))).delays =
        (List.range 3).map
          (fun i => retryDelay 2 true (fun _ => (1 : ℚ) / 2) (i + 1)) ∧
    (retry_on_failure 3 2 true (fun _ => (1 : ℚ) / 2) "f"
        (fun _ => (Except.error "x" : Except String Unit))).delays.length = 3 ∧
    (0 : ℚ) ≤ 1 / 2 ∧ (1 : ℚ) / 2 < 1 := by
  have h := C9_delays_on_exhaustion "f" 3 2 true (fun _ => (1 : ℚ) / 2)
    (fun _ => (Except.error "x" : Except String Unit)) (fun _ => "x")
    (fun _ => rfl)
  exact ⟨h.1, h.2.1, h.2.2.1, by norm_num, by norm_num⟩

end SpotipyV1
